import Mathlib

/-!
Verification of the zfs-rs handle-ownership-and-translation layer
(`src/lib.rs`), shallowly embedded in Lean.

The native libzfs layer (`libzfs_sys`) is an external contract; it is
modelled as an abstract environment `NativeEnv` whose fields stand for the
native entry points (`libzfs_init`, `zpool_open`, `zfs_open`,
`zfs_get_pool_handle`, `zfs_handle_dup`, the iteration walks, and the
last-error state).  Native handles are modelled as natural numbers; a null
pointer result is modelled as `Option.none`.
-/

namespace ZfsRs

/-- The native last-error record: the pair (code, message) read from the
native library's last-error state.  In the source this is
`ZfsError { code, msg }` produced by `ZfsError::last_error`. -/
structure ZfsErrorInfo where
  code : Nat
  msg : String
deriving Repr, DecidableEq

/-- Modelled from the spec: the error taxonomy of the repository's `error.rs`
module (declared `mod error;` in `src/lib.rs` but the file is not under
`src/`).  Per the spec's §7 taxonomy, `Zfs` is the domain error carrying the
native code and message, and `Sys` is the operating-system error (carrying
the OS's last error code, `std::io::Error::last_os_error()`). -/
inductive Error where
  | Zfs : ZfsErrorInfo → Error
  | Sys : Nat → Error
deriving Repr, DecidableEq

/-- The generic "unknown error" sentinel of the native `zfs_error` enum
(`sys::zfs_error::EZFS_UNKNOWN`).  The concrete value is part of the
external native contract; the wrapper only ever compares codes against it
for equality. -/
def EZFS_UNKNOWN : Nat := 2095

/-- Abstract model of the native libzfs layer.  Each field stands for one
native entry point or one piece of native state, as listed in the spec's
§6 external-interface inventory.  Handles are `Nat`; a null pointer is
`none`. -/
structure NativeEnv where
  /-- Native `sys::libzfs_init()`: `none` models a null session handle. -/
  libzfs_init : Option Nat
  /-- Native `sys::zpool_open(lib_handle, name)`: `none` models a null result. -/
  zpool_open : Nat → String → Option Nat
  /-- Native `sys::zfs_open(lib_handle, name, types_i32)`. -/
  zfs_open : Nat → String → Int → Option Nat
  /-- The native last-error state (`ZfsError::last_error`), attached to the
  session. -/
  lastZfsError : ZfsErrorInfo
  /-- Value of `std::io::Error::last_os_error()`, as its raw OS code. -/
  lastOsError : Nat
  /-- Native `sys::zfs_get_pool_handle(ds_handle)`: a getter returning the pool
  handle associated with a dataset handle. -/
  zfs_get_pool_handle : Nat → Nat
  /-- Native `sys::zfs_handle_dup(ds_handle)`: the native duplicate of a dataset
  handle. -/
  zfs_handle_dup : Nat → Nat
  /-- The sequence of native handles `sys::zfs_iter_snapshots` delivers to
  the callback for a given dataset handle, in delivery order. -/
  snapshots : Nat → List Nat
  /-- The delivery sequence of `sys::zfs_iter_filesystems`. -/
  filesystems : Nat → List Nat
  /-- The delivery sequence of `sys::zfs_iter_children`. -/
  children : Nat → List Nat
  /-- Creation time of the dataset a native handle refers to (used by the
  native sorted snapshot walk). -/
  creationTime : Nat → Nat
  /-- Native `sys::zfs_get_name(ds_handle)`, already UTF-8 decoded. -/
  dsName : Nat → String
  /-- Native `sys::zfs_get_type(ds_handle)`: the raw native type code. -/
  dsType : Nat → Nat

/-- Wrapper `LibZfs`: owns the native session handle. -/
structure LibZfs where
  handle : Nat
deriving Repr, DecidableEq

/-- Wrapper `ZPool`: owns one native pool handle. -/
structure ZPool where
  handle : Nat
deriving Repr, DecidableEq

/-- Wrapper `ZfsDataset`: owns one native dataset handle. -/
structure ZfsDataset where
  handle : Nat
deriving Repr, DecidableEq

/-- Source `LibZfs::new`: calls `libzfs_init`; on a null handle returns
`Error::Sys(last_os_error())`, otherwise wraps the session handle. -/
def LibZfs.new (env : NativeEnv) : Except Error LibZfs :=
  match env.libzfs_init with
  | none => .error (.Sys env.lastOsError)
  | some h => .ok ⟨h⟩

/-- Source `LibZfs::ptr_or_err`: the shared handle-resolution policy.  On a null
pointer, reads the native last error (`ZfsError::last_error(self)`); if its
code differs from `EZFS_UNKNOWN` reports it as a domain error, otherwise
reports `Error::Sys(last_os_error())`.  On a non-null pointer, returns it. -/
def LibZfs.ptr_or_err (env : NativeEnv) (ptr : Option Nat) : Except Error Nat :=
  match ptr with
  | none =>
    let zfs_err := env.lastZfsError
    if zfs_err.code ≠ EZFS_UNKNOWN then
      .error (.Zfs zfs_err)
    else
      .error (.Sys env.lastOsError)
  | some p => .ok p

/-- Source `LibZfs::pool_by_name`: `zpool_open` then `ptr_or_err`, wrapping the
resulting handle in a `ZPool`. -/
def LibZfs.pool_by_name (env : NativeEnv) (lib : LibZfs) (name : String) :
    Except Error ZPool :=
  (LibZfs.ptr_or_err env (env.zpool_open lib.handle name)).map ZPool.mk

/-- The `types.0 as i32` cast in `dataset_by_name`: a wrapping
(bit-preserving) conversion of a `u32` value to `i32`, modulo `2^32`. -/
def u32_as_i32 (n : Nat) : Int :=
  if n < 2 ^ 31 then (n : Int) else (n : Int) - 2 ^ 32

/-- The dataset-type enumeration (`ZfsType`), translated from the native
`zfs_type_t` codes. -/
inductive ZfsType where
  | Filesystem
  | Snapshot
  | Volume
  | Pool
  | Bookmark
deriving Repr, DecidableEq

/-- Source `Into<u32> for ZfsType`: the discriminant assigned by the
`translate_enum!` macro (the native `ZFS_TYPE_*` codes). -/
def ZfsType.toRaw : ZfsType → Nat
  | .Filesystem => 1
  | .Snapshot => 2
  | .Volume => 4
  | .Pool => 8
  | .Bookmark => 16

/-- Source `From<u32> for ZfsType`: the match over the native codes generated by
`translate_enum!`.  `none` models the fall-through arm, which in the source
halts with a fatal contract violation. -/
def ZfsType.fromRaw (raw : Nat) : Option ZfsType :=
  if raw = 1 then some .Filesystem
  else if raw = 2 then some .Snapshot
  else if raw = 4 then some .Volume
  else if raw = 8 then some .Pool
  else if raw = 16 then some .Bookmark
  else none

/-- The closed set of native `zfs_type_t` codes handled by the translation. -/
def zfsTypeCodes : List Nat := [1, 2, 4, 8, 16]

/-- The pool-state enumeration (`ZPoolState`), translated from the native
`pool_state_t` codes. -/
inductive ZPoolState where
  | Active
  | Exported
  | Destroyed
  | Spare
  | L2Cache
  | Uninitialized
  | Unavailable
  | PotentiallyActive
deriving Repr, DecidableEq

/-- Source `Into<u32> for ZPoolState`: the discriminant assigned by the
`translate_enum!` macro (the native `POOL_STATE_*` codes). -/
def ZPoolState.toRaw : ZPoolState → Nat
  | .Active => 0
  | .Exported => 1
  | .Destroyed => 2
  | .Spare => 3
  | .L2Cache => 4
  | .Uninitialized => 5
  | .Unavailable => 6
  | .PotentiallyActive => 7

/-- Source `From<u32> for ZPoolState`: the match over the native codes generated by
`translate_enum!`.  `none` models the fall-through arm, which in the source
halts with a fatal contract violation. -/
def ZPoolState.fromRaw (raw : Nat) : Option ZPoolState :=
  if raw = 0 then some .Active
  else if raw = 1 then some .Exported
  else if raw = 2 then some .Destroyed
  else if raw = 3 then some .Spare
  else if raw = 4 then some .L2Cache
  else if raw = 5 then some .Uninitialized
  else if raw = 6 then some .Unavailable
  else if raw = 7 then some .PotentiallyActive
  else none

/-- The closed set of native `pool_state_t` codes handled by the
translation. -/
def poolStateCodes : List Nat := [0, 1, 2, 3, 4, 5, 6, 7]

/-- Source `ZfsTypeMask(u32)`: the dataset-type bitmask. -/
structure ZfsTypeMask where
  val : Nat
deriving Repr, DecidableEq

/-- Source `ZfsTypeMask::all()`: `u32::MAX`, the full-width all-ones mask. -/
def ZfsTypeMask.all : ZfsTypeMask := ⟨4294967295⟩

/-- Source `From<ZfsType> for ZfsTypeMask`: the single-type mask. -/
def ZfsTypeMask.ofType (t : ZfsType) : ZfsTypeMask := ⟨t.toRaw⟩

/-- Source `impl BitOr<ZfsType> for ZfsTypeMask`: union of a mask with one type. -/
def ZfsTypeMask.orType (m : ZfsTypeMask) (t : ZfsType) : ZfsTypeMask :=
  ⟨m.val ||| t.toRaw⟩

/-- Source `impl BitOr for ZfsType`: union of two single types into a mask. -/
def ZfsType.orType (a b : ZfsType) : ZfsTypeMask :=
  ⟨a.toRaw ||| b.toRaw⟩

/-- Source `LibZfs::dataset_by_name`: `zfs_open` with the mask cast `types.0 as
i32`, then `ptr_or_err`, wrapping the resulting handle in a `ZfsDataset`. -/
def LibZfs.dataset_by_name (env : NativeEnv) (lib : LibZfs) (name : String)
    (types : ZfsTypeMask) : Except Error ZfsDataset :=
  (LibZfs.ptr_or_err env (env.zfs_open lib.handle name (u32_as_i32 types.val))).map
    ZfsDataset.mk

/-- Source `zfs_iter_collect`: the C collection callback.  Given a delivered native
handle and the in-progress vector, it pushes an owned `ZfsDataset` wrapping
the handle and returns the signal `0` ("continue"). -/
def zfs_iter_collect (handle : Nat) (collected : List ZfsDataset) :
    List ZfsDataset × Int :=
  (collected ++ [ZfsDataset.mk handle], 0)

/-- The native walk protocol: deliver each handle in order to the callback,
threading the accumulator; a non-zero signal from the callback terminates
the walk early. -/
def runIter (cb : Nat → List ZfsDataset → List ZfsDataset × Int) :
    List Nat → List ZfsDataset → List ZfsDataset
  | [], acc => acc
  | h :: rest, acc =>
    let r := cb h acc
    if r.2 = 0 then runIter cb rest r.1 else r.1

/-- Source `ZfsDataset::get_snapshots`: run the native snapshot walk with
`zfs_iter_collect` over an initially empty vector. -/
def ZfsDataset.get_snapshots (env : NativeEnv) (ds : ZfsDataset) :
    List ZfsDataset :=
  runIter zfs_iter_collect (env.snapshots ds.handle) []

/-- The delivery sequence of `sys::zfs_iter_snapshots_sorted`.  Modelled
from the native contract: the sorted walk delivers the same snapshot
handles as the unordered walk, in ascending creation-time order. -/
def sortedSnapshotOrder (env : NativeEnv) (h : Nat) : List Nat :=
  List.insertionSort (fun a b => env.creationTime a ≤ env.creationTime b)
    (env.snapshots h)

/-- Source `ZfsDataset::get_snapshots_ordered`: run the native creation-time-sorted
snapshot walk with `zfs_iter_collect` over an initially empty vector. -/
def ZfsDataset.get_snapshots_ordered (env : NativeEnv) (ds : ZfsDataset) :
    List ZfsDataset :=
  runIter zfs_iter_collect (sortedSnapshotOrder env ds.handle) []

/-- Source `ZfsDataset::get_filesystems`. -/
def ZfsDataset.get_filesystems (env : NativeEnv) (ds : ZfsDataset) :
    List ZfsDataset :=
  runIter zfs_iter_collect (env.filesystems ds.handle) []

/-- Source `ZfsDataset::get_children`. -/
def ZfsDataset.get_children (env : NativeEnv) (ds : ZfsDataset) :
    List ZfsDataset :=
  runIter zfs_iter_collect (env.children ds.handle) []

/-- Source `ZfsDataset::get_pool`: wraps the handle returned by
`zfs_get_pool_handle` in a `ZPool`, with no duplication. -/
def ZfsDataset.get_pool (env : NativeEnv) (ds : ZfsDataset) : ZPool :=
  ⟨env.zfs_get_pool_handle ds.handle⟩

/-- Source `impl Clone for ZfsDataset`: wraps the handle returned by
`zfs_handle_dup`. -/
def ZfsDataset.cloneDup (env : NativeEnv) (ds : ZfsDataset) : ZfsDataset :=
  ⟨env.zfs_handle_dup ds.handle⟩

/-- Source `impl Drop for ZPool` calls `zpool_close(self.handle)`: the native
handle released when this wrapper is dropped. -/
def ZPool.dropCloses (p : ZPool) : Nat := p.handle

/-- The scenario `let p1 = ds.get_pool(); let p2 = ds.get_pool();` followed
by dropping both wrappers: the list of native pool handles released, in
drop order. -/
def doubleGetPoolCloses (env : NativeEnv) (ds : ZfsDataset) : List Nat :=
  [(ZfsDataset.get_pool env ds).dropCloses, (ZfsDataset.get_pool env ds).dropCloses]

/-- Source `impl Drop for ZfsDataset` calls `zfs_close(self.handle)`: closing a
dataset handle removes it from the set of open native handles. -/
def closeHandle (openHandles : List Nat) (h : Nat) : List Nat :=
  openHandles.erase h

/-- Source `ZfsDataset::get_name` relative to a set of open native handles: the
native name query is meaningful only while the wrapped handle is open
(`none` models use-after-close). -/
def ZfsDataset.get_name_in (env : NativeEnv) (openHandles : List Nat)
    (ds : ZfsDataset) : Option String :=
  if ds.handle ∈ openHandles then some (env.dsName ds.handle) else none

/-- Source `ZfsDataset::get_type` relative to a set of open native handles:
`ZfsType::from` applied to the native type code while the handle is open
(`none` models use-after-close). -/
def ZfsDataset.get_type_in (env : NativeEnv) (openHandles : List Nat)
    (ds : ZfsDataset) : Option ZfsType :=
  if ds.handle ∈ openHandles then ZfsType.fromRaw (env.dsType ds.handle) else none

/-- Masks expressible by the public mask constructors: a single defined
type (`From<ZfsType>`), the union of two defined types (`BitOr for
ZfsType`), or the union of such a mask with a further defined type
(`BitOr<ZfsType> for ZfsTypeMask`). -/
inductive BuiltMask : ZfsTypeMask → Prop
  | ofType (t : ZfsType) : BuiltMask (ZfsTypeMask.ofType t)
  | typeOr (a b : ZfsType) : BuiltMask (ZfsType.orType a b)
  | maskOr (m : ZfsTypeMask) (t : ZfsType) :
      BuiltMask m → BuiltMask (m.orType t)


/-- Evaluating the walk with the collection callback from an accumulator
appends one wrapped handle per delivered handle, in delivery order. -/
lemma runIter_collect_eq (l : List Nat) (acc : List ZfsDataset) :
    runIter zfs_iter_collect l acc = acc ++ l.map ZfsDataset.mk := by
  induction l generalizing acc with
  | nil => simp [runIter]
  | cons h rest ih => simp [runIter, zfs_iter_collect, ih]

/-- A concrete native environment used to evaluate the development on
closed inputs. -/
def envBase : NativeEnv where
  libzfs_init := some 1
  zpool_open := fun _ _ => none
  zfs_open := fun _ _ _ => none
  lastZfsError := ⟨2001, "dataset does not exist"⟩
  lastOsError := 13
  zfs_get_pool_handle := fun _ => 7
  zfs_handle_dup := fun h => h + 100
  snapshots := fun _ => []
  filesystems := fun _ => []
  children := fun _ => []
  creationTime := fun h => h
  dsName := fun _ => "tank/data"
  dsType := fun _ => 1

/-- A concrete native environment in which the open-by-name calls succeed. -/
def envOpenOk : NativeEnv :=
  { envBase with
    zpool_open := fun _ _ => some 5
    zfs_open := fun _ _ _ => some 6 }

/-- A concrete native environment in which the stale `EZFS_UNKNOWN` sentinel
is set as the last native error. -/
def envStale : NativeEnv :=
  { envBase with lastZfsError := ⟨EZFS_UNKNOWN, "unknown error"⟩ }

/-- A concrete native environment with three snapshots of dataset handle 0,
delivered by the unordered walk as [30, 10, 20], with creation time equal to
the handle value. -/
def envSnap : NativeEnv :=
  { envBase with snapshots := fun _ => [30, 10, 20] }

/-- C2: every enumeration operation returns exactly one owned
`ZfsDataset` per callback invocation, wrapping the delivered native handles
in delivery order, and the collection callback pushes exactly one wrapper
and returns the continue signal 0 on every invocation. -/
theorem iter_collect_spec (env : NativeEnv) (ds : ZfsDataset) :
    ZfsDataset.get_snapshots env ds = (env.snapshots ds.handle).map ZfsDataset.mk ∧
    ZfsDataset.get_filesystems env ds = (env.filesystems ds.handle).map ZfsDataset.mk ∧
    ZfsDataset.get_children env ds = (env.children ds.handle).map ZfsDataset.mk ∧
    ZfsDataset.get_snapshots_ordered env ds =
      (sortedSnapshotOrder env ds.handle).map ZfsDataset.mk ∧
    (∀ h acc, (zfs_iter_collect h acc).2 = 0 ∧
      (zfs_iter_collect h acc).1 = acc ++ [ZfsDataset.mk h]) := by
  refine ⟨?_, ?_, ?_, ?_, ?_⟩
  · simpa using runIter_collect_eq (env.snapshots ds.handle) []
  · simpa using runIter_collect_eq (env.filesystems ds.handle) []
  · simpa using runIter_collect_eq (env.children ds.handle) []
  · simpa using runIter_collect_eq (sortedSnapshotOrder env ds.handle) []
  · intro h acc
    exact ⟨rfl, rfl⟩

/-- C3: for every defined variant of `ZPoolState` and `ZfsType`, encoding
then decoding returns the variant, and for every defined native code,
decoding then encoding returns the code. -/
theorem enum_roundtrip :
    (∀ v : ZPoolState, ZPoolState.fromRaw v.toRaw = some v) ∧
    poolStateCodes.map (fun c => (ZPoolState.fromRaw c).map ZPoolState.toRaw) =
      poolStateCodes.map some ∧
    (∀ v : ZfsType, ZfsType.fromRaw v.toRaw = some v) ∧
    zfsTypeCodes.map (fun c => (ZfsType.fromRaw c).map ZfsType.toRaw) =
      zfsTypeCodes.map some := by
  refine ⟨?_, ?_, ?_, ?_⟩
  · intro v; cases v <;> rfl
  · rfl
  · intro v; cases v <;> rfl
  · rfl

/-- C4: the decoder's fatal fall-through arm (modelled as `none`) is taken
exactly on the integer codes outside the closed set of defined native
codes, for both `ZPoolState` and `ZfsType`; on a defined code it never
falls through. -/
theorem decode_undefined_fatal (c : Nat) :
    (ZPoolState.fromRaw c = none ↔ c ∉ poolStateCodes) ∧
    (ZfsType.fromRaw c = none ↔ c ∉ zfsTypeCodes) := by
  unfold ZPoolState.fromRaw ZfsType.fromRaw poolStateCodes zfsTypeCodes
  constructor <;> split_ifs <;> simp_all

/-- C9: the all-ones mask is absorbing for the mask-with-type union: for
every dataset type `t`, `ZfsTypeMask::all() | t` equals
`ZfsTypeMask::all()`. -/
theorem mask_all_absorbing (t : ZfsType) :
    ZfsTypeMask.all.orType t = ZfsTypeMask.all := by
  cases t <;> decide

/-- C1: for both open-by-name operations, a null native handle yields an
error — a system error from the OS's last error code when the native last
error is the `EZFS_UNKNOWN` sentinel, a domain error carrying the native
code and message otherwise — and a non-null native handle yields `Ok`
wrapping exactly that handle. -/
theorem open_by_name_spec (env : NativeEnv) (lib : LibZfs) (name : String)
    (types : ZfsTypeMask) :
    (env.zpool_open lib.handle name = none →
      LibZfs.pool_by_name env lib name =
        .error (if env.lastZfsError.code = EZFS_UNKNOWN then
          Error.Sys env.lastOsError else Error.Zfs env.lastZfsError)) ∧
    (∀ h, env.zpool_open lib.handle name = some h →
      LibZfs.pool_by_name env lib name = .ok ⟨h⟩) ∧
    (env.zfs_open lib.handle name (u32_as_i32 types.val) = none →
      LibZfs.dataset_by_name env lib name types =
        .error (if env.lastZfsError.code = EZFS_UNKNOWN then
          Error.Sys env.lastOsError else Error.Zfs env.lastZfsError)) ∧
    (∀ h, env.zfs_open lib.handle name (u32_as_i32 types.val) = some h →
      LibZfs.dataset_by_name env lib name types = .ok ⟨h⟩) := by
  refine ⟨?_, ?_, ?_, ?_⟩
  · intro hnull
    simp only [LibZfs.pool_by_name, hnull, LibZfs.ptr_or_err]
    by_cases hc : env.lastZfsError.code = EZFS_UNKNOWN <;> simp [Except.map, hc]
  · intro h hsome
    simp [LibZfs.pool_by_name, hsome, LibZfs.ptr_or_err, Except.map]
  · intro hnull
    simp only [LibZfs.dataset_by_name, hnull, LibZfs.ptr_or_err]
    by_cases hc : env.lastZfsError.code = EZFS_UNKNOWN <;> simp [Except.map, hc]
  · intro h hsome
    simp [LibZfs.dataset_by_name, hsome, LibZfs.ptr_or_err, Except.map]

/-- Witness for C1: in `envBase` both opens return null with a non-sentinel
last error, so both operations report the domain error; in `envStale` the
sentinel is set, so both report the system error; in `envOpenOk` both
return the delivered handles. -/
theorem open_by_name_spec_witness :
    LibZfs.pool_by_name envBase ⟨1⟩ "tank" =
      .error (.Zfs ⟨2001, "dataset does not exist"⟩) ∧
    LibZfs.dataset_by_name envBase ⟨1⟩ "tank/data" ZfsTypeMask.all =
      .error (.Zfs ⟨2001, "dataset does not exist"⟩) ∧
    LibZfs.pool_by_name envStale ⟨1⟩ "tank" = .error (.Sys 13) ∧
    LibZfs.dataset_by_name envStale ⟨1⟩ "tank/data" ZfsTypeMask.all =
      .error (.Sys 13) ∧
    LibZfs.pool_by_name envOpenOk ⟨1⟩ "tank" = .ok ⟨5⟩ ∧
    LibZfs.dataset_by_name envOpenOk ⟨1⟩ "tank/data" ZfsTypeMask.all = .ok ⟨6⟩ := by
  have h1 := open_by_name_spec envBase ⟨1⟩ "tank" ZfsTypeMask.all
  have h1d := open_by_name_spec envBase ⟨1⟩ "tank/data" ZfsTypeMask.all
  have h2 := open_by_name_spec envStale ⟨1⟩ "tank" ZfsTypeMask.all
  have h2d := open_by_name_spec envStale ⟨1⟩ "tank/data" ZfsTypeMask.all
  have h3 := open_by_name_spec envOpenOk ⟨1⟩ "tank" ZfsTypeMask.all
  have h3d := open_by_name_spec envOpenOk ⟨1⟩ "tank/data" ZfsTypeMask.all
  refine ⟨?_, ?_, ?_, ?_, ?_, ?_⟩
  · simpa [envBase, EZFS_UNKNOWN] using h1.1 rfl
  · simpa [envBase, EZFS_UNKNOWN] using h1d.2.2.1 rfl
  · simpa [envStale, envBase] using h2.1 rfl
  · simpa [envStale, envBase] using h2d.2.2.1 rfl
  · simpa using h3.2.1 5 rfl
  · simpa using h3d.2.2.2 6 rfl

/-- C7: `LibZfs::new` fails exactly on a null native initializer result,
always with a system error derived from the OS's last error code and never
with a domain error; on a non-null result it returns `Ok` owning that
session handle. -/
theorem libzfs_new_spec (env : NativeEnv) :
    (env.libzfs_init = none →
      LibZfs.new env = .error (.Sys env.lastOsError)) ∧
    (∀ h, env.libzfs_init = some h → LibZfs.new env = .ok ⟨h⟩) ∧
    (∀ zerr, LibZfs.new env ≠ .error (.Zfs zerr)) := by
  refine ⟨?_, ?_, ?_⟩
  · intro hnull; simp [LibZfs.new, hnull]
  · intro h hsome; simp [LibZfs.new, hsome]
  · intro zerr
    cases hinit : env.libzfs_init <;> simp [LibZfs.new, hinit]

/-- Witness for C7: `envBase` initializes with session handle 1; the
variant with a null initializer fails with the system error for OS code
13. -/
theorem libzfs_new_spec_witness :
    LibZfs.new envBase = .ok ⟨1⟩ ∧
    LibZfs.new { envBase with libzfs_init := none } = .error (.Sys 13) := by
  have hok := libzfs_new_spec envBase
  have hnull := libzfs_new_spec { envBase with libzfs_init := none }
  exact ⟨hok.2.1 1 rfl, by simpa [envBase] using hnull.1 rfl⟩

/-- C5 counterexample: in the concrete environment `envBase`, calling
`get_pool` twice on the same dataset and dropping both wrappers releases
the same native pool handle twice — the handles owned by the two wrappers
are not distinct, contradicting the no-aliasing claim. -/
theorem get_pool_aliasing_counterexample :
    ¬ (doubleGetPoolCloses envBase ⟨5⟩).Nodup := by
  simp [doubleGetPoolCloses, ZfsDataset.get_pool, ZPool.dropCloses, envBase]

/-- C5 amended: `get_pool` wraps exactly the handle returned by the native
pool-handle getter, with no duplication; consequently two wrappers produced
by repeated `get_pool` calls on the same dataset own the same native
handle, and dropping both releases that handle twice. -/
theorem get_pool_no_duplication (env : NativeEnv) (ds : ZfsDataset) :
    (ZfsDataset.get_pool env ds).handle = env.zfs_get_pool_handle ds.handle ∧
    ¬ (doubleGetPoolCloses env ds).Nodup := by
  exact ⟨rfl, by simp [doubleGetPoolCloses]⟩

/-- C6: cloning wraps the handle returned by the native duplicate call;
when the native layer honours its contract (the duplicate is a fresh open
handle distinct from the original), the clone never shares the original's
handle, and closing the original leaves the clone's `get_name` and
`get_type` results unchanged and valid. -/
theorem clone_independent (env : NativeEnv) (openHandles : List Nat) (h : Nat)
    (hfresh : env.zfs_handle_dup h ≠ h)
    (hopen : env.zfs_handle_dup h ∈ openHandles) :
    (ZfsDataset.cloneDup env ⟨h⟩).handle = env.zfs_handle_dup h ∧
    (ZfsDataset.cloneDup env ⟨h⟩).handle ≠ h ∧
    ZfsDataset.get_name_in env (closeHandle openHandles h)
        (ZfsDataset.cloneDup env ⟨h⟩) =
      ZfsDataset.get_name_in env openHandles (ZfsDataset.cloneDup env ⟨h⟩) ∧
    ZfsDataset.get_name_in env openHandles (ZfsDataset.cloneDup env ⟨h⟩) =
      some (env.dsName (env.zfs_handle_dup h)) ∧
    ZfsDataset.get_type_in env (closeHandle openHandles h)
        (ZfsDataset.cloneDup env ⟨h⟩) =
      ZfsDataset.get_type_in env openHandles (ZfsDataset.cloneDup env ⟨h⟩) := by
  have hmem : env.zfs_handle_dup h ∈ closeHandle openHandles h := by
    unfold closeHandle
    exact (List.mem_erase_of_ne hfresh).2 hopen
  refine ⟨rfl, hfresh, ?_, ?_, ?_⟩
  · simp [ZfsDataset.get_name_in, ZfsDataset.cloneDup, hmem, hopen]
  · simp [ZfsDataset.get_name_in, ZfsDataset.cloneDup, hopen]
  · simp [ZfsDataset.get_type_in, ZfsDataset.cloneDup, hmem, hopen]

/-- Witness for C6: in `envBase` the duplicate of handle 3 is 103; with
open handles [3, 103], closing the original 3 leaves the clone's name and
type queries unchanged, and the clone's handle differs from the
original's. -/
theorem clone_independent_witness :
    (ZfsDataset.cloneDup envBase ⟨3⟩).handle ≠ 3 ∧
    ZfsDataset.get_name_in envBase (closeHandle [3, 103] 3)
        (ZfsDataset.cloneDup envBase ⟨3⟩) =
      ZfsDataset.get_name_in envBase [3, 103] (ZfsDataset.cloneDup envBase ⟨3⟩) ∧
    ZfsDataset.get_name_in envBase [3, 103] (ZfsDataset.cloneDup envBase ⟨3⟩) =
      some "tank/data" ∧
    ZfsDataset.get_type_in envBase (closeHandle [3, 103] 3)
        (ZfsDataset.cloneDup envBase ⟨3⟩) =
      ZfsDataset.get_type_in envBase [3, 103] (ZfsDataset.cloneDup envBase ⟨3⟩) := by
  have hthm := clone_independent envBase [3, 103] 3 (by decide) (by decide)
  exact ⟨hthm.2.1, hthm.2.2.1, hthm.2.2.2.1, hthm.2.2.2.2⟩

/-- C8: the ordered snapshot enumeration returns handles in ascending
creation-time order; in particular, for three snapshots with pairwise
distinct creation times t1 < t2 < t3, whatever order the unordered native
walk would deliver them in, the result is [t1, t2, t3]. -/
theorem snapshots_ordered_spec (env : NativeEnv) (hd : Nat) :
    ((ZfsDataset.get_snapshots_ordered env ⟨hd⟩).map
        (fun d => env.creationTime d.handle)).Sorted (· ≤ ·) ∧
    (∀ s1 s2 s3,
      env.creationTime s1 < env.creationTime s2 →
      env.creationTime s2 < env.creationTime s3 →
      env.snapshots hd ∈
        [[s1, s2, s3], [s1, s3, s2], [s2, s1, s3],
         [s2, s3, s1], [s3, s1, s2], [s3, s2, s1]] →
      ZfsDataset.get_snapshots_ordered env ⟨hd⟩ =
        [ZfsDataset.mk s1, ZfsDataset.mk s2, ZfsDataset.mk s3]) := by
  have hrun : ZfsDataset.get_snapshots_ordered env ⟨hd⟩ =
      (sortedSnapshotOrder env hd).map ZfsDataset.mk := by
    simpa using runIter_collect_eq (sortedSnapshotOrder env hd) []
  constructor
  · haveI : IsTotal Nat (fun a b => env.creationTime a ≤ env.creationTime b) :=
      ⟨fun a b => Nat.le_total _ _⟩
    haveI : IsTrans Nat (fun a b => env.creationTime a ≤ env.creationTime b) :=
      ⟨fun a b c hab hbc => Nat.le_trans hab hbc⟩
    rw [hrun]
    simp only [List.map_map]
    have hs := List.sorted_insertionSort
      (fun a b => env.creationTime a ≤ env.creationTime b) (env.snapshots hd)
    exact List.pairwise_map.mpr hs
  · intro s1 s2 s3 h12 h23 hmem
    have h13 : env.creationTime s1 < env.creationTime s3 := lt_trans h12 h23
    have le12 := le_of_lt h12
    have le23 := le_of_lt h23
    have le13 := le_of_lt h13
    have n21 : ¬ env.creationTime s2 ≤ env.creationTime s1 := not_le.mpr h12
    have n32 : ¬ env.creationTime s3 ≤ env.creationTime s2 := not_le.mpr h23
    have n31 : ¬ env.creationTime s3 ≤ env.creationTime s1 := not_le.mpr h13
    have key : sortedSnapshotOrder env hd = [s1, s2, s3] := by
      unfold sortedSnapshotOrder
      simp only [List.mem_cons, List.not_mem_nil, or_false] at hmem
      rcases hmem with hc | hc | hc | hc | hc | hc <;> rw [hc] <;>
        simp [List.insertionSort, List.orderedInsert, le12, le23, le13, n21, n32, n31]
    rw [hrun, key]
    rfl

/-- Witness for C8: in `envSnap` the unordered walk delivers the snapshot
handles as [30, 10, 20] while their creation times are 30, 10, 20; the
ordered enumeration returns them as [10, 20, 30]. -/
theorem snapshots_ordered_spec_witness :
    ZfsDataset.get_snapshots_ordered envSnap ⟨0⟩ =
      [ZfsDataset.mk 10, ZfsDataset.mk 20, ZfsDataset.mk 30] :=
  (snapshots_ordered_spec envSnap 0).2 10 20 30 (by decide) (by decide) (by decide)

/-- Value bound for a single defined dataset-type code. -/
lemma zfsType_toRaw_lt (t : ZfsType) : t.toRaw < 2 ^ 5 := by
  cases t <;> decide

/-- Every mask expressible by the public constructors stays within the low
five bits. -/
lemma builtMask_val_lt (m : ZfsTypeMask) (hm : BuiltMask m) : m.val < 2 ^ 5 := by
  induction hm with
  | ofType t => exact zfsType_toRaw_lt t
  | typeOr a b =>
    exact Nat.bitwise_lt (zfsType_toRaw_lt a) (zfsType_toRaw_lt b)
  | maskOr m t hm ih =>
    exact Nat.bitwise_lt ih (zfsType_toRaw_lt t)

/-- C10: the `types.0 as i32` conversion is the wrapping cast modulo 2^32:
on `ZfsTypeMask::all()` it passes -1 to the native open-dataset call, and
on every mask built from defined `ZfsType` values it is non-negative and
equal to the mask's bit pattern. -/
theorem mask_cast_spec :
    u32_as_i32 ZfsTypeMask.all.val = -1 ∧
    (∀ env lib name,
      LibZfs.dataset_by_name env lib name ZfsTypeMask.all =
        (LibZfs.ptr_or_err env (env.zfs_open lib.handle name (-1))).map
          ZfsDataset.mk) ∧
    (∀ m, BuiltMask m →
      0 ≤ u32_as_i32 m.val ∧ u32_as_i32 m.val = (m.val : Int)) := by
  have hall : u32_as_i32 ZfsTypeMask.all.val = -1 := by
    unfold u32_as_i32 ZfsTypeMask.all
    norm_num
  refine ⟨hall, ?_, ?_⟩
  · intro env lib name
    unfold LibZfs.dataset_by_name
    rw [hall]
  · intro m hm
    have hlt : m.val < 2 ^ 31 :=
      lt_of_lt_of_le (builtMask_val_lt m hm) (by norm_num)
    unfold u32_as_i32
    rw [if_pos hlt]
    exact ⟨Int.natCast_nonneg m.val, rfl⟩

/-- Witness for C10: the mask Filesystem | Snapshot (built by the public
constructors) casts to a non-negative integer equal to its bit pattern. -/
theorem mask_cast_spec_witness :
    0 ≤ u32_as_i32
        ((ZfsTypeMask.ofType ZfsType.Filesystem).orType ZfsType.Snapshot).val ∧
    u32_as_i32
        ((ZfsTypeMask.ofType ZfsType.Filesystem).orType ZfsType.Snapshot).val =
      (((ZfsTypeMask.ofType ZfsType.Filesystem).orType ZfsType.Snapshot).val : Int) :=
  mask_cast_spec.2.2 _ (BuiltMask.maskOr _ _ (BuiltMask.ofType _))

end ZfsRs
